import Mathlib

set_option maxHeartbeats 1000000
set_option maxRecDepth 8192

/- Shallow embedding of the elb-log-analyzer query driver.
   The data model follows src/common/types.rs and the driver follows
   src/app.rs.  The collaborator modules that the driver calls (syntax
   parser, logical planner, physical-plan compiler, streaming executor)
   are not part of the given sources; where a claim needs them they are
   modelled from the specification and marked as such. -/

deriving instance DecidableEq for Except

/-- IEEE-754 binary64 value, represented by its 64-bit pattern
(the payload of Rust f64 as far as equality and hashing go). -/
structure F64 where
  bits : Nat
deriving DecidableEq

/-- The pattern encodes a NaN: exponent field all ones, mantissa non-zero. -/
def F64.isNan (x : F64) : Bool :=
  ((x.bits >>> 52) % 2048 == 2047) && (x.bits % (2 ^ 52) != 0)

/-- The pattern encodes +0.0 or -0.0: all bits below the sign bit are zero. -/
def F64.isZero (x : F64) : Bool :=
  x.bits % (2 ^ 63) == 0

/-- Primitive f64 equality: false on any NaN, identifies the two zeros,
and otherwise compares bit patterns (no other f64 values alias). -/
def F64.beq (x y : F64) : Bool :=
  !x.isNan && !y.isNan && ((x.isZero && y.isZero) || x.bits == y.bits)

/-- ordered_float::OrderedFloat<f64>: the total-order wrapper used by the
Float variant of Value in src/common/types.rs. -/
structure OrderedFloat where
  val : F64
deriving DecidableEq

/-- OrderedFloat's Eq: all NaNs are equal to each other, and otherwise
primitive f64 equality applies.  This is a total equivalence. -/
def OrderedFloat.beq (x y : OrderedFloat) : Bool :=
  (x.val.isNan && y.val.isNan) || F64.beq x.val y.val

/-- OrderedFloat::into_inner, as used by the JSON renderer in src/app.rs. -/
def OrderedFloat.into_inner (x : OrderedFloat) : F64 := x.val

/-- Hash payload of OrderedFloat: NaNs collapse to the canonical NaN
pattern and the two zeros collapse to 0, so hashing is total and agrees
with OrderedFloat equality. -/
def OrderedFloat.hashBits (x : OrderedFloat) : Nat :=
  if x.val.isNan then 0x7ff8000000000000
  else if x.val.isZero then 0
  else x.val.bits

/-- The Value enum of src/common/types.rs (lines 4-10): exactly the four
variants declared there. -/
inductive Value where
  | Int : Int → Value
  | Float : OrderedFloat → Value
  | String : String → Value
  | Null : Value
deriving DecidableEq

/-- One tag per declared variant of Value. -/
inductive ValueVariant where
  | int
  | float
  | string
  | null
deriving DecidableEq

/-- The variant tag of a Value. -/
def Value.variant : Value → ValueVariant
  | .Int _ => .int
  | .Float _ => .float
  | .String _ => .string
  | .Null => .null

/-- The list of all variant tags of Value. -/
def valueVariantList : List ValueVariant :=
  [ValueVariant.int, ValueVariant.float, ValueVariant.string, ValueVariant.null]

instance : Fintype ValueVariant where
  elems := ⟨(valueVariantList : List ValueVariant), by decide⟩
  complete := by intro x; cases x <;> decide

/-- The derived PartialEq/Eq on Value: variant tags must agree and the
payloads compare with their own equality (OrderedFloat equality for
Float).  Total over every pair of variants. -/
def Value.beq : Value → Value → Bool
  | .Int a, .Int b => a == b
  | .Float a, .Float b => OrderedFloat.beq a b
  | .String a, .String b => a == b
  | .Null, .Null => true
  | _, _ => false

/-- Hash of a string payload. -/
def strHash (s : String) : Nat :=
  s.data.foldl (fun a c => a * 31 + c.toNat) 7

/-- The derived Hash on Value: a discriminant tag mixed with the
payload's hash; defined on every variant. -/
def Value.hash : Value → Nat
  | .Int i => 0 * 2 ^ 64 + (i % 2 ^ 64).toNat
  | .Float f => 1 * 2 ^ 64 + f.hashBits
  | .String s => 2 * 2 ^ 64 + strHash s
  | .Null => 3 * 2 ^ 64

/-- Tuple from src/common/types.rs: an ordered sequence of values. -/
abbrev Tuple := List Value

/-- Variables from src/common/types.rs maps variable names to values
(the HashMap is modelled as an association list). -/
abbrev Variables := List (String × Value)

/-- empty_variables from src/common/types.rs. -/
def empty_variables : Variables := []

/-- JSON numbers as produced by the json crate: an i64 or an f64. -/
inductive JsonNumber where
  | ofInt : Int → JsonNumber
  | ofF64 : F64 → JsonNumber
deriving DecidableEq

/-- The JSON values the renderer in src/app.rs produces for fields. -/
inductive JsonValue where
  | null
  | bool : Bool → JsonValue
  | number : JsonNumber → JsonValue
  | string : String → JsonValue
deriving DecidableEq

/-- The JSON encoding of one field value, translated from the match in
the Json arm of run (src/app.rs).  That match lists arms for Boolean,
DateTime, Host and HttpRequest as well, but the Value declaration in
src/common/types.rs has no such variants, so only the arms for the four
declared variants can be embedded. -/
def jsonOfValue : Value → JsonValue
  | .Float f => .number (.ofF64 f.into_inner)
  | .Int i => .number (.ofInt i)
  | .Null => .null
  | .String s => .string s

/-- Error payload of the logical planner (module not in the sources;
the driver only wraps and propagates it). -/
structure ParseError where
  msg : String
deriving DecidableEq

/-- Error payload of physical lowering (module not in the sources). -/
structure PhysicalPlanError where
  msg : String
deriving DecidableEq

/-- Error payload of stream construction (module not in the sources). -/
structure CreateStreamError where
  msg : String
deriving DecidableEq

/-- Error payload of a stream pull (module not in the sources). -/
structure StreamError where
  msg : String
deriving DecidableEq

/-- CSV writer error payload. -/
structure CsvError where
  msg : String
deriving DecidableEq

/-- json crate error payload. -/
structure JsonError where
  msg : String
deriving DecidableEq

/-- nom::error::VerboseErrorKind (only carried, never inspected by the
driver: the conversion in src/app.rs discards it). -/
inductive VerboseErrorKind where
  | ctx : String → VerboseErrorKind
  | chr : Char → VerboseErrorKind
  | nomKind : Nat → VerboseErrorKind
deriving DecidableEq

/-- nom::error::VerboseError: the list of error branches the parser
attempted, each with the input span where it failed. -/
structure VerboseError where
  errors : List (String × VerboseErrorKind)
deriving DecidableEq

/-- nom::Err over VerboseError. -/
inductive NomErr where
  | Incomplete
  | Error : VerboseError → NomErr
  | Failure : VerboseError → NomErr
deriving DecidableEq

/-- The AppError enum of src/app.rs. -/
inductive AppError where
  | Syntax : String → AppError
  | InputNotAllConsumed : String → AppError
  | Parse : ParseError → AppError
  | PhysicalPlan : PhysicalPlanError → AppError
  | CreateStream : CreateStreamError → AppError
  | Stream : StreamError → AppError
  | InvalidLogFileFormat
  | WriteCsv : CsvError → AppError
  | WriteJson : JsonError → AppError
deriving DecidableEq

/-- The accumulation loop of the From<nom::Err<VerboseError>> impl in
src/app.rs: starting from an empty string, append each branch's input
span followed by a newline. -/
def errorText (v : VerboseError) : String :=
  v.errors.foldl (fun acc p => acc ++ p.1 ++ "\n") ""

/-- From<nom::Err<VerboseError<&str>>> for AppError (src/app.rs):
Failure and Error accumulate every branch; the remaining case
(Incomplete) yields an empty diagnostic. -/
def appErrorFromNom : NomErr → AppError
  | .Failure v => .Syntax (errorText v)
  | .Error v => .Syntax (errorText v)
  | _ => .Syntax ""

/-- Recursive form of the diagnostic text: one line per branch. -/
def concatLines : List (String × VerboseErrorKind) → String
  | [] => ""
  | p :: rest => p.1 ++ "\n" ++ concatLines rest

/-- Comparison operators of the query language (spec 4.1). -/
inductive CmpOp where
  | eq
  | neq
  | lt
  | le
  | gt
  | ge
deriving DecidableEq

/-- An operand of a comparison: a column reference or a literal. -/
inductive Operand where
  | column : String → Operand
  | litNum : String → Operand
  | litStr : String → Operand
  | litBool : Bool → Operand
deriving DecidableEq

/-- Filter expressions: comparisons combined with AND/OR, with
parenthesised grouping (spec 4.1). -/
inductive BoolExpr where
  | cmp : Operand → CmpOp → Operand → BoolExpr
  | and : BoolExpr → BoolExpr → BoolExpr
  | or : BoolExpr → BoolExpr → BoolExpr
deriving DecidableEq

/-- The projection clause: * or an ordered list of column names. -/
inductive Projection where
  | star
  | columns : List String → Projection
deriving DecidableEq

/-- The SelectStatement AST produced by the syntax layer (spec 3):
table name, projection, optional filter, optional limit. -/
structure SelectStatement where
  table_name : String
  projection : Projection
  where_clause : Option BoolExpr
  limit : Option Nat
deriving DecidableEq

/-- Whitespace characters skipped between tokens. -/
def isWs (c : Char) : Bool :=
  c == ' ' || c == '\t' || c == '\n' || c == '\r'

/-- Drop leading whitespace. -/
def skipWs : List Char → List Char
  | [] => []
  | c :: cs => if isWs c then skipWs cs else c :: cs

def isIdentStart (c : Char) : Bool := c.isAlpha || c == '_'

def isIdentChar (c : Char) : Bool := c.isAlphanum || c == '_'

/-- Split off the longest prefix satisfying p. -/
def takeWhileB (p : Char → Bool) : List Char → List Char × List Char
  | [] => ([], [])
  | c :: cs =>
    if p c then
      let (t, r) := takeWhileB p cs
      (c :: t, r)
    else ([], c :: cs)

/-- Match a literal keyword (case-sensitive), returning the remainder. -/
def keywordP : List Char → List Char → Option (List Char)
  | [], cs => some cs
  | _ :: _, [] => none
  | k :: ks, c :: cs => if c == k then keywordP ks cs else none

/-- Parse an identifier after skipping whitespace. -/
def identP (cs : List Char) : Option (String × List Char) :=
  match skipWs cs with
  | [] => none
  | c :: rest =>
    if isIdentStart c then
      let (t, r) := takeWhileB isIdentChar rest
      some (String.mk (c :: t), r)
    else none

/-- Parse a keyword token after skipping whitespace. -/
def tokenP (kw : String) (cs : List Char) : Option (List Char) :=
  keywordP kw.data (skipWs cs)

/-- Parse a comma-separated identifier list (the spine is bounded by
fuel, which callers set to the input length). -/
def identListP : Nat → List Char → Option (List String × List Char)
  | 0, _ => none
  | fuel + 1, cs =>
    match identP cs with
    | none => none
    | some (idnt, cs1) =>
      match tokenP "," cs1 with
      | none => some ([idnt], cs1)
      | some cs2 =>
        match identListP fuel cs2 with
        | none => none
        | some (ids, cs3) => some (idnt :: ids, cs3)

/-- Parse the projection clause: * or a column list. -/
def projectionP (cs : List Char) : Option (Projection × List Char) :=
  match tokenP "*" cs with
  | some cs1 => some (.star, cs1)
  | none =>
    match identListP (cs.length + 1) cs with
    | some (ids, cs1) => some (.columns ids, cs1)
    | none => none

/-- Parse a number literal (digits with an optional decimal point). -/
def numberP (cs : List Char) : Option (String × List Char) :=
  match takeWhileB Char.isDigit cs with
  | ([], _) => none
  | (ds, rest) =>
    match rest with
    | '.' :: rest1 =>
      match takeWhileB Char.isDigit rest1 with
      | ([], _) => none
      | (fs, rest2) => some (String.mk (ds ++ '.' :: fs), rest2)
    | _ => some (String.mk ds, rest)

/-- Parse a double-quoted string literal body. -/
def stringBodyP : List Char → Option (List Char × List Char)
  | [] => none
  | c :: cs =>
    if c == '"' then some ([], cs)
    else
      match stringBodyP cs with
      | none => none
      | some (body, rest) => some (c :: body, rest)

/-- Parse one comparison operand: a literal or a column reference. -/
def operandP (cs : List Char) : Option (Operand × List Char) :=
  match skipWs cs with
  | [] => none
  | c :: rest =>
    if c == '"' then
      match stringBodyP rest with
      | none => none
      | some (body, rest1) => some (.litStr (String.mk body), rest1)
    else if c.isDigit then
      match numberP (c :: rest) with
      | none => none
      | some (n, rest1) => some (.litNum n, rest1)
    else
      match identP (c :: rest) with
      | none => none
      | some (idnt, rest1) =>
        if idnt = "true" then some (.litBool true, rest1)
        else if idnt = "false" then some (.litBool false, rest1)
        else some (.column idnt, rest1)

/-- Parse a comparison operator after skipping whitespace. -/
def cmpOpP (cs : List Char) : Option (CmpOp × List Char) :=
  let cs1 := skipWs cs
  match keywordP "<=".data cs1 with
  | some r => some (.le, r)
  | none =>
    match keywordP ">=".data cs1 with
    | some r => some (.ge, r)
    | none =>
      match keywordP "!=".data cs1 with
      | some r => some (.neq, r)
      | none =>
        match keywordP "=".data cs1 with
        | some r => some (.eq, r)
        | none =>
          match keywordP "<".data cs1 with
          | some r => some (.lt, r)
          | none =>
            match keywordP ">".data cs1 with
            | some r => some (.gt, r)
            | none => none

/-- Parse a single comparison. -/
def cmpP (cs : List Char) : Option (BoolExpr × List Char) :=
  match operandP cs with
  | none => none
  | some (lhs, cs1) =>
    match cmpOpP cs1 with
    | none => none
    | some (op, cs2) =>
      match operandP cs2 with
      | none => none
      | some (rhs, cs3) => some (.cmp lhs op rhs, cs3)

/-- Parser mode for the boolean-expression grammar: an atom, an
AND-chain start or continuation (with the accumulated left operand), or
an OR-chain start or continuation.  A single fuel-indexed function
keeps the recursion structural. -/
inductive PMode where
  | atom
  | andStart
  | andChain : BoolExpr → PMode
  | orStart
  | orChain : BoolExpr → PMode

/-- The boolean-expression parser (spec 4.1): comparisons, AND binding
tighter than OR, parenthesised grouping, left-to-right chains. -/
def exprP : Nat → PMode → List Char → Option (BoolExpr × List Char)
  | 0, _, _ => none
  | fuel + 1, m, cs =>
    match m with
    | .atom =>
      match tokenP "(" cs with
      | some cs1 =>
        match exprP fuel .orStart cs1 with
        | none => none
        | some (e, cs2) =>
          match tokenP ")" cs2 with
          | none => none
          | some cs3 => some (e, cs3)
      | none => cmpP cs
    | .andStart =>
      match exprP fuel .atom cs with
      | none => none
      | some (e, cs1) => exprP fuel (.andChain e) cs1
    | .andChain acc =>
      match tokenP "AND" cs with
      | none => some (acc, cs)
      | some cs1 =>
        match exprP fuel .atom cs1 with
        | none => some (acc, cs)
        | some (e, cs2) => exprP fuel (.andChain (.and acc e)) cs2
    | .orStart =>
      match exprP fuel .andStart cs with
      | none => none
      | some (e, cs1) => exprP fuel (.orChain e) cs1
    | .orChain acc =>
      match tokenP "OR" cs with
      | none => some (acc, cs)
      | some cs1 =>
        match exprP fuel .andStart cs1 with
        | none => some (acc, cs)
        | some (e, cs2) => exprP fuel (.orChain (.or acc e)) cs2

/-- Optional WHERE clause: on any failure nothing is consumed, as with
nom's opt combinator. -/
def optWhereP (cs : List Char) : Option BoolExpr × List Char :=
  match tokenP "WHERE" cs with
  | none => (none, cs)
  | some cs1 =>
    match exprP (4 * cs1.length + 4) PMode.orStart cs1 with
    | none => (none, cs)
    | some (e, cs2) => (some e, cs2)

/-- Parse an unsigned decimal integer after skipping whitespace. -/
def natP (cs : List Char) : Option (Nat × List Char) :=
  match takeWhileB Char.isDigit (skipWs cs) with
  | ([], _) => none
  | (ds, rest) => some (ds.foldl (fun a c => a * 10 + (c.toNat - 48)) 0, rest)

/-- Optional LIMIT clause: on any failure nothing is consumed. -/
def optLimitP (cs : List Char) : Option Nat × List Char :=
  match tokenP "LIMIT" cs with
  | none => (none, cs)
  | some cs1 =>
    match natP cs1 with
    | none => (none, cs)
    | some (n, cs2) => (some n, cs2)

/-- Modelled from the spec: syntax::parser::select_query is not among
the given sources.  Grammar (spec 4.1):
SELECT (star or columns) FROM ident, optional WHERE boolean expression,
optional LIMIT count; on success the unconsumed remainder is returned
together with the statement, on failure a nom VerboseError. -/
def select_query (q : String) : Except NomErr (String × SelectStatement) :=
  match tokenP "SELECT" q.data with
  | none => .error (.Error ⟨[(q, .nomKind 0)]⟩)
  | some cs1 =>
    match projectionP cs1 with
    | none => .error (.Error ⟨[(String.mk cs1, .nomKind 1)]⟩)
    | some (proj, cs2) =>
      match tokenP "FROM" cs2 with
      | none => .error (.Error ⟨[(String.mk cs2, .nomKind 2)]⟩)
      | some cs3 =>
        match identP cs3 with
        | none => .error (.Error ⟨[(String.mk cs3, .nomKind 3)]⟩)
        | some (tbl, cs4) =>
          match optWhereP cs4 with
          | (wc, cs5) =>
            match optLimitP cs5 with
            | (lim, cs6) =>
              .ok (String.mk cs6, ⟨tbl, proj, wc, lim⟩)

/-- The opaque data-source descriptor handed to the driver (spec 6):
never interpreted by the core. -/
structure DataSource where
  descriptor : String
deriving DecidableEq

/-- Opaque logical plan node as the driver sees it (built and consumed
by collaborator modules that are not among the given sources). -/
structure LogicalNode where
  tag : String
deriving DecidableEq

/-- Opaque physical plan as the driver sees it; the driver only ever
prints its debug representation (src/app.rs explain branch). -/
structure PhysicalPlan where
  debugRepr : String
deriving DecidableEq

/-- Modelled from the spec: a Record (execution module, not among the
given sources) is a named mapping from output column name to Value,
ordered (spec 3). -/
abbrev Record := List (String × Value)

/-- Record::to_tuples: the ordered (name, Value) pairs (spec 3). -/
def Record.to_tuples (r : Record) : List (String × Value) := r

/-- Modelled from the spec: a display cell for one value (the exact
cell text is produced outside the core; any injective rendering
serves the driver claims, which never inspect it). -/
def displayValue : Value → String
  | .Int i => toString i
  | .Float f => "float:" ++ toString f.val.bits
  | .String s => s
  | .Null => "null"

/-- Record::to_row: ordered display cells (spec 3). -/
def Record.to_row (r : Record) : List String :=
  r.map (fun kv => displayValue kv.2)

/-- Record::to_csv_record: ordered CSV field strings (spec 3). -/
def Record.to_csv_record (r : Record) : List String :=
  r.map (fun kv => displayValue kv.2)

/-- One result of a Stream::next() call: an error, exhaustion, or a
record (spec 4.4). -/
abbrev StreamItem := Except StreamError (Option Record)

/-- A stream as the driver consumes it: the successive results of its
next() calls (after the end of the list the stream is exhausted). -/
abbrev RecordStream := List StreamItem

/-- The logical planner collaborator: logical::parser::parse_query. -/
abbrev Planner := SelectStatement → DataSource → Except ParseError LogicalNode

/-- The physical lowering collaborator: node.physical(creator) with the
PhysicalPlanCreator built from the data source, producing the plan and
its variable bindings. -/
abbrev PhysicalLowering :=
  LogicalNode → DataSource → Except PhysicalPlanError (PhysicalPlan × Variables)

/-- The stream construction collaborator: physical_plan.get(variables). -/
abbrev StreamBuilder :=
  PhysicalPlan → Variables → Except CreateStreamError RecordStream

/-- The OutputMode enum of src/app.rs. -/
inductive OutputMode where
  | Table
  | Csv
  | Json
deriving DecidableEq

/-- FromStr for OutputMode (src/app.rs). -/
def OutputMode.from_str : String → Except String OutputMode
  | "table" => .ok .Table
  | "csv" => .ok .Csv
  | "json" => .ok .Json
  | _ => .error "unknown output mode"

/-- What the driver emits on success: the explain header plus plan
debug text, a printed table, CSV rows, or the JSON array of objects. -/
inductive Output where
  | explain : String → Output
  | table : List (List String) → Output
  | csv : List (List String) → Output
  | json : List (List (String × JsonValue)) → Output
deriving DecidableEq

/-- The Table-mode loop of run (src/app.rs): pull until None, adding
each record's row; a pull error aborts with that error. -/
def drainTable : RecordStream → Except AppError (List (List String))
  | [] => .ok []
  | .error e :: _ => .error (.Stream e)
  | .ok none :: _ => .ok []
  | .ok (some r) :: rest =>
    match drainTable rest with
    | .error e => .error e
    | .ok rows => .ok (r.to_row :: rows)

/-- The Csv-mode loop of run (src/app.rs). -/
def drainCsv : RecordStream → Except AppError (List (List String))
  | [] => .ok []
  | .error e :: _ => .error (.Stream e)
  | .ok none :: _ => .ok []
  | .ok (some r) :: rest =>
    match drainCsv rest with
    | .error e => .error e
    | .ok rows => .ok (r.to_csv_record :: rows)

/-- One JSON object of the Json-mode loop: obj[key] = encoded value for
each (key, val) in record.to_tuples() (src/app.rs). -/
def jsonObjOfRecord (r : Record) : List (String × JsonValue) :=
  r.to_tuples.map (fun kv => (kv.1, jsonOfValue kv.2))

/-- The Json-mode loop of run (src/app.rs). -/
def drainJson : RecordStream → Except AppError (List (List (String × JsonValue)))
  | [] => .ok []
  | .error e :: _ => .error (.Stream e)
  | .ok none :: _ => .ok []
  | .ok (some r) :: rest =>
    match drainJson rest with
    | .error e => .error e
    | .ok objs => .ok (jsonObjOfRecord r :: objs)

/-- The tail of run (src/app.rs) after the table-name check: plan the
query, lower it, then either print the plan (explain mode) or build the
stream and render it in the selected output mode. -/
def runAfterTableCheck (parse_query : Planner) (lowering : PhysicalLowering)
    (builder : StreamBuilder) (select_stmt : SelectStatement)
    (data_source : DataSource) (explain_mode : Bool)
    (output_mode : OutputMode) : Except AppError Output :=
  match parse_query select_stmt data_source with
  | .error e => .error (.Parse e)
  | .ok node =>
    match lowering node data_source with
    | .error e => .error (.PhysicalPlan e)
    | .ok (physical_plan, vars) =>
      if explain_mode then .ok (.explain physical_plan.debugRepr)
      else
        match builder physical_plan vars with
        | .error e => .error (.CreateStream e)
        | .ok stream =>
          match output_mode with
          | .Table =>
            match drainTable stream with
            | .error e => .error e
            | .ok rows => .ok (.table rows)
          | .Csv =>
            match drainCsv stream with
            | .error e => .error e
            | .ok rows => .ok (.csv rows)
          | .Json =>
            match drainJson stream with
            | .error e => .error e
            | .ok objs => .ok (.json objs)

/-- run (src/app.rs): parse the query string; reject unconsumed
leftover input; reject a table name outside elb, alb, squid, s3;
then hand over to planning and execution. -/
def run (parse_query : Planner) (lowering : PhysicalLowering)
    (builder : StreamBuilder) (query_str : String)
    (data_source : DataSource) (explain_mode : Bool)
    (output_mode : OutputMode) : Except AppError Output :=
  match select_query query_str with
  | .error e => .error (appErrorFromNom e)
  | .ok (rest_of_str, select_stmt) =>
    if rest_of_str = "" then
      if ["elb", "alb", "squid", "s3"].contains select_stmt.table_name then
        runAfterTableCheck parse_query lowering builder select_stmt
          data_source explain_mode output_mode
      else .error .InvalidLogFileFormat
    else .error (.InputNotAllConsumed rest_of_str)

/-- Whether the syntax parse of a query succeeded with a parsed WHERE
clause in the resulting statement. -/
def whereClauseParsed (q : String) : Bool :=
  match select_query q with
  | .ok (_, stmt) => stmt.where_clause.isSome
  | .error _ => false

/-- The table identifier carried by the parse of a query, when the
parse succeeds. -/
def tableOf (q : String) : Option String :=
  match select_query q with
  | .ok (_, stmt) => some stmt.table_name
  | .error _ => none

/-- Modelled from the spec: operator state of the Limit operator of the
streaming executor (spec 4.4), which is not among the given sources.
pulled counts the child pulls so far, remaining is the unused budget,
and exhausted latches once the operator has reported exhaustion. -/
structure LimitState where
  pulled : Nat
  remaining : Nat
  exhausted : Bool
deriving DecidableEq

/-- Initial Limit state for budget n. -/
def limitInit (n : Nat) : LimitState :=
  ⟨0, n, false⟩

/-- Modelled from the spec: one next() call of the Limit operator
(spec 4.4).  Once exhausted it answers None; with a spent budget it
reports exhaustion permanently; otherwise it pulls the child (child k
is the child's k-th pull result) and passes the record through. -/
def limitStep (child : Nat → Option Record) (s : LimitState) :
    LimitState × Option Record :=
  if s.exhausted then (s, none)
  else if s.remaining = 0 then ({ s with exhausted := true }, none)
  else
    match child s.pulled with
    | none => ({ s with exhausted := true }, none)
    | some r => (⟨s.pulled + 1, s.remaining - 1, false⟩, some r)

/-- The Limit operator's state before its k-th next() call. -/
def limitState (child : Nat → Option Record) (n : Nat) : Nat → LimitState
  | 0 => limitInit n
  | k + 1 => (limitStep child (limitState child n k)).1

/-- The result of the Limit operator's k-th next() call. -/
def limitOut (child : Nat → Option Record) (n k : Nat) : Option Record :=
  (limitStep child (limitState child n k)).2

/-- How many records the Limit operator has yielded in its first k
next() calls. -/
def limitYield (child : Nat → Option Record) (n : Nat) : Nat → Nat
  | 0 => 0
  | k + 1 => limitYield child n k + (limitOut child n k).toList.length

/-- A trivial planner standing in for logical::parser::parse_query in
concrete runs. -/
def planner0 : Planner := fun _ _ => .ok ⟨"scan"⟩

/-- A planner that reports an error if it is ever invoked; used to
demonstrate that a run never reached planning. -/
def plannerProbe : Planner := fun _ _ => .error ⟨"planner invoked"⟩

/-- A trivial physical lowering for concrete runs. -/
def lowering0 : PhysicalLowering := fun node _ => .ok (⟨node.tag⟩, empty_variables)

/-- A stream builder producing an immediately exhausted stream. -/
def builder0 : StreamBuilder := fun _ _ => .ok []

/-- A stream builder that reports an error if it is ever invoked; used
to demonstrate that a run never constructed a stream. -/
def builderProbe : StreamBuilder := fun _ _ => .error ⟨"stream built"⟩

/-- A concrete data source descriptor for concrete runs. -/
def ds0 : DataSource := ⟨"access.log"⟩

/-- A concrete one-field record for concrete runs. -/
def logLine1 : Record := [("elb_status_code", Value.String "200")]

lemma f64_beq_refl (x : F64) : F64.isNan x = false → F64.beq x x = true := by
  intro h
  simp [F64.beq, h]

lemma orderedFloat_beq_refl (x : OrderedFloat) : OrderedFloat.beq x x = true := by
  by_cases h : x.val.isNan = true
  · simp [OrderedFloat.beq, h]
  · simp only [Bool.not_eq_true] at h
    simp [OrderedFloat.beq, f64_beq_refl x.val h]

lemma beqSymm {α : Type} [BEq α] [LawfulBEq α] (a b : α) : (a == b) = (b == a) := by
  by_cases h : a = b
  · rw [h]
  · have h1 : (a == b) = false := beq_eq_false_iff_ne.mpr h
    have h2 : (b == a) = false := beq_eq_false_iff_ne.mpr (Ne.symm h)
    rw [h1, h2]

lemma f64_beq_symm (x y : F64) : F64.beq x y = F64.beq y x := by
  simp only [F64.beq, beqSymm x.bits y.bits]
  by_cases hx : x.isNan <;> by_cases hy : y.isNan <;>
    simp [hx, hy, Bool.and_comm, Bool.and_left_comm]

lemma orderedFloat_beq_symm (x y : OrderedFloat) :
    OrderedFloat.beq x y = OrderedFloat.beq y x := by
  simp [OrderedFloat.beq, f64_beq_symm, Bool.and_comm]

lemma f64_isZero_of_bits_eq {x y : F64} (h : x.bits = y.bits) :
    x.isZero = y.isZero := by
  simp [F64.isZero, h]

lemma f64_beq_trans {x y z : F64} (h1 : F64.beq x y = true)
    (h2 : F64.beq y z = true) : F64.beq x z = true := by
  simp only [F64.beq, Bool.and_eq_true, Bool.or_eq_true, Bool.not_eq_true',
    beq_iff_eq] at h1 h2 ⊢
  refine ⟨⟨h1.1.1, h2.1.2⟩, ?_⟩
  rcases h1.2 with h1z | h1b
  · rcases h2.2 with h2z | h2b
    · exact Or.inl ⟨h1z.1, h2z.2⟩
    · exact Or.inl ⟨h1z.1, (f64_isZero_of_bits_eq h2b) ▸ h1z.2⟩
  · rcases h2.2 with h2z | h2b
    · exact Or.inl ⟨(f64_isZero_of_bits_eq h1b) ▸ h2z.1, h2z.2⟩
    · exact Or.inr (h1b.trans h2b)

lemma f64_beq_not_nan {x y : F64} (h : F64.beq x y = true) :
    x.isNan = false ∧ y.isNan = false := by
  simp only [F64.beq, Bool.and_eq_true, Bool.not_eq_true'] at h
  exact ⟨h.1.1, h.1.2⟩

lemma orderedFloat_beq_trans {x y z : OrderedFloat}
    (h1 : OrderedFloat.beq x y = true) (h2 : OrderedFloat.beq y z = true) :
    OrderedFloat.beq x z = true := by
  simp only [OrderedFloat.beq, Bool.or_eq_true, Bool.and_eq_true] at h1 h2 ⊢
  rcases h1 with h1n | h1b
  · rcases h2 with h2n | h2b
    · exact Or.inl ⟨h1n.1, h2n.2⟩
    · exact absurd (f64_beq_not_nan h2b).1 (by simp [h1n.2])
  · rcases h2 with h2n | h2b
    · exact absurd (f64_beq_not_nan h1b).2 (by simp [h2n.1])
    · exact Or.inr (f64_beq_trans h1b h2b)

lemma value_beq_refl (v : Value) : Value.beq v v = true := by
  cases v with
  | Int a => simp [Value.beq]
  | Float a => simp [Value.beq, orderedFloat_beq_refl]
  | String a => simp [Value.beq]
  | Null => simp [Value.beq]

lemma value_beq_symm (v w : Value) : Value.beq v w = Value.beq w v := by
  cases v <;> cases w <;>
    simp only [Value.beq] <;>
    first
      | rfl
      | exact beqSymm _ _
      | exact orderedFloat_beq_symm _ _

lemma value_beq_trans {u v w : Value} (h1 : Value.beq u v = true)
    (h2 : Value.beq v w = true) : Value.beq u w = true := by
  cases u <;> cases v <;> cases w <;> simp_all [Value.beq]
  all_goals exact orderedFloat_beq_trans h1 h2

lemma strAppendAssoc (a b c : String) : a ++ b ++ c = a ++ (b ++ c) := by
  cases a with
  | mk la =>
    cases b with
    | mk lb =>
      cases c with
      | mk lc =>
        show String.mk (la ++ lb ++ lc) = String.mk (la ++ (lb ++ lc))
        rw [List.append_assoc]

lemma errorText_foldl_eq (l : List (String × VerboseErrorKind)) :
    ∀ acc : String, l.foldl (fun acc p => acc ++ p.1 ++ "\n") acc = acc ++ concatLines l := by
  induction l with
  | nil => intro acc; simp [concatLines]
  | cons p rest ih =>
    intro acc
    simp only [List.foldl_cons, concatLines, ih]
    simp [strAppendAssoc]

lemma errorText_eq (v : VerboseError) : errorText v = concatLines v.errors := by
  have h := errorText_foldl_eq v.errors ""
  simpa [errorText] using h

lemma concatLines_append (l1 l2 : List (String × VerboseErrorKind)) :
    concatLines (l1 ++ l2) = concatLines l1 ++ concatLines l2 := by
  induction l1 with
  | nil => simp [concatLines]
  | cons p rest ih => simp [concatLines, ih, strAppendAssoc]

lemma mem_concatLines {p : String × VerboseErrorKind}
    {l : List (String × VerboseErrorKind)} (hmem : p ∈ l) :
    ∃ s t, concatLines l = s ++ (p.1 ++ "\n") ++ t := by
  obtain ⟨l1, l2, rfl⟩ := List.append_of_mem hmem
  refine ⟨concatLines l1, concatLines l2, ?_⟩
  rw [concatLines_append]
  simp [concatLines, strAppendAssoc]

lemma limitStep_remaining (child : Nat → Option Record) (s : LimitState) :
    (limitStep child s).1.remaining + ((limitStep child s).2).toList.length
      = s.remaining := by
  by_cases he : s.exhausted = true
  · simp [limitStep, he]
  · by_cases hr : s.remaining = 0
    · simp [limitStep, he, hr]
    · cases hc : child s.pulled with
      | none => simp [limitStep, he, hr, hc]
      | some r =>
        simp [limitStep, he, hr, hc]
        omega

lemma limit_invariant (child : Nat → Option Record) (n : Nat) :
    ∀ k, (limitState child n k).remaining + limitYield child n k = n := by
  intro k
  induction k with
  | zero => simp [limitState, limitInit, limitYield]
  | succ k ih =>
    have hs := limitStep_remaining child (limitState child n k)
    simp only [limitYield, limitState, limitOut] at *
    omega

lemma limitStep_none_exhausted (child : Nat → Option Record) (s : LimitState)
    (h : (limitStep child s).2 = none) : (limitStep child s).1.exhausted = true := by
  by_cases he : s.exhausted = true
  · simp [limitStep, he]
  · by_cases hr : s.remaining = 0
    · simp [limitStep, he, hr]
    · cases hc : child s.pulled with
      | none => simp [limitStep, he, hr, hc]
      | some r => simp [limitStep, he, hr, hc] at h

lemma limitStep_of_exhausted (child : Nat → Option Record) (s : LimitState)
    (h : s.exhausted = true) :
    (limitStep child s).1.exhausted = true ∧ (limitStep child s).2 = none := by
  simp [limitStep, h]

lemma limit_exhausted_forever (child : Nat → Option Record) (n k : Nat)
    (h : (limitState child n k).exhausted = true) :
    ∀ d, (limitState child n (k + d)).exhausted = true ∧
      limitOut child n (k + d) = none := by
  intro d
  induction d with
  | zero => exact ⟨h, (limitStep_of_exhausted child _ h).2⟩
  | succ d ih =>
    have hstep := limitStep_of_exhausted child (limitState child n (k + d)) ih.1
    exact ⟨hstep.1, (limitStep_of_exhausted child _ hstep.1).2⟩

lemma drainTable_mid_error (pre : RecordStream) (e : StreamError)
    (post : RecordStream) (h : ∀ x ∈ pre, ∃ r, x = .ok (some r)) :
    drainTable (pre ++ .error e :: post) = .error (.Stream e) := by
  induction pre with
  | nil => rfl
  | cons x rest ih =>
    obtain ⟨r, rfl⟩ := h x (List.mem_cons_self x rest)
    have hrest := ih (fun y hy => h y (List.mem_cons_of_mem _ hy))
    simp [drainTable, hrest]

lemma drainCsv_mid_error (pre : RecordStream) (e : StreamError)
    (post : RecordStream) (h : ∀ x ∈ pre, ∃ r, x = .ok (some r)) :
    drainCsv (pre ++ .error e :: post) = .error (.Stream e) := by
  induction pre with
  | nil => rfl
  | cons x rest ih =>
    obtain ⟨r, rfl⟩ := h x (List.mem_cons_self x rest)
    have hrest := ih (fun y hy => h y (List.mem_cons_of_mem _ hy))
    simp [drainCsv, hrest]

lemma drainJson_mid_error (pre : RecordStream) (e : StreamError)
    (post : RecordStream) (h : ∀ x ∈ pre, ∃ r, x = .ok (some r)) :
    drainJson (pre ++ .error e :: post) = .error (.Stream e) := by
  induction pre with
  | nil => rfl
  | cons x rest ih =>
    obtain ⟨r, rfl⟩ := h x (List.mem_cons_self x rest)
    have hrest := ih (fun y hy => h y (List.mem_cons_of_mem _ hy))
    simp [drainJson, hrest]

/-- C1 (counterexample): the Value type of src/common/types.rs does not
have eight variants: its variant type has exactly four elements, so in
particular it does not have eight. -/
theorem c1_counterexample :
    Fintype.card ValueVariant = 4 ∧ ¬ (Fintype.card ValueVariant = 8) := by
  constructor
  · decide
  · decide

/-- C1 (amended): the Value type is a tagged union with exactly the four
variants Int (64-bit signed), Float (64-bit wrapped in the total-order
OrderedFloat type), String and Null; derived equality is total (a full
equivalence: reflexive, symmetric, transitive) over every variant, and
hashing is defined on every variant. -/
theorem c1_value_four_variants_eq_hash_total :
    Fintype.card ValueVariant = 4 ∧
    (∀ v : Value, Value.beq v v = true) ∧
    (∀ v w : Value, Value.beq v w = Value.beq w v) ∧
    (∀ u v w : Value, Value.beq u v = true → Value.beq v w = true →
      Value.beq u w = true) ∧
    (∀ v : Value, ∃ h : Nat, Value.hash v = h) := by
  refine ⟨by decide, value_beq_refl, value_beq_symm, ?_, fun v => ⟨Value.hash v, rfl⟩⟩
  intro u v w h1 h2
  exact value_beq_trans h1 h2

/-- C1 (witness): the amended equality facts applied at a concrete
value. -/
theorem c1_witness : Value.beq (Value.Int 7) (Value.Int 7) = true :=
  c1_value_four_variants_eq_hash_total.2.2.2.1 (Value.Int 7) (Value.Int 7)
    (Value.Int 7) (by decide) (by decide)

/-- C10: the derived equality on Value is reflexive over every variant:
Null equals Null, and a Float wrapping any given ordered-float bit
pattern equals itself — there is no NaN-style non-reflexive case. -/
theorem c10_value_eq_reflexive :
    (∀ v : Value, Value.beq v v = true) ∧
    Value.beq Value.Null Value.Null = true ∧
    (∀ b : Nat, Value.beq (Value.Float ⟨⟨b⟩⟩) (Value.Float ⟨⟨b⟩⟩) = true) :=
  ⟨value_beq_refl, by decide, fun b => value_beq_refl (Value.Float ⟨⟨b⟩⟩)⟩

/-- C5 (counterexample): the renderer's dispatch cannot cover eight
Value variants: the Value type it matches on has exactly four. -/
theorem c5_counterexample :
    ¬ (Fintype.card ValueVariant = 8) ∧ Fintype.card ValueVariant = 4 := by
  constructor
  · decide
  · decide

/-- C5 (amended): in JSON output mode each of the four declared Value
variants is mapped to exactly one JSON encoding — Int to a number,
Float to a number carrying its inner f64, Null to JSON null, String to
a JSON string — the dispatch covers all four variants, and every
(key, value) field of a record is encoded accordingly in its object. -/
theorem c5_json_encoding_exhaustive :
    (∀ i : Int, jsonOfValue (Value.Int i) = .number (.ofInt i)) ∧
    (∀ f : OrderedFloat, jsonOfValue (Value.Float f) = .number (.ofF64 f.into_inner)) ∧
    (jsonOfValue Value.Null = .null) ∧
    (∀ s : String, jsonOfValue (Value.String s) = .string s) ∧
    (∀ (r : Record) (k : String) (v : Value),
      (k, v) ∈ r → (k, jsonOfValue v) ∈ jsonObjOfRecord r) := by
  refine ⟨fun i => rfl, fun f => rfl, rfl, fun s => rfl, ?_⟩
  intro r k v hmem
  exact List.mem_map_of_mem (fun kv => (kv.1, jsonOfValue kv.2)) hmem

/-- C5 (witness): the record-field encoding applied at a concrete
record. -/
theorem c5_witness :
    ("status", jsonOfValue (Value.Int 200)) ∈
      jsonObjOfRecord [("status", Value.Int 200)] :=
  c5_json_encoding_exhaustive.2.2.2.2 [("status", Value.Int 200)] "status"
    (Value.Int 200) (by decide)

/-- C6: when the syntax parser fails with an Error or Failure carrying
branch list v, the resulting Syntax error's diagnostic text is the
concatenation of every attempted branch's input span, one per line, so
every branch appears in the diagnostic, not just the first. -/
theorem c6_syntax_error_accumulates_all_branches :
    ∀ v : VerboseError,
      appErrorFromNom (.Failure v) = .Syntax (errorText v) ∧
      appErrorFromNom (.Error v) = .Syntax (errorText v) ∧
      errorText v = concatLines v.errors ∧
      ∀ p ∈ v.errors, ∃ s t, errorText v = s ++ (p.1 ++ "\n") ++ t := by
  intro v
  refine ⟨rfl, rfl, errorText_eq v, ?_⟩
  intro p hp
  rw [errorText_eq]
  exact mem_concatLines hp

/-- C6 (witness): a two-branch parser failure whose diagnostic carries
both branches, the second included. -/
theorem c6_witness :
    appErrorFromNom (.Error ⟨[("expected FROM", .nomKind 0),
        ("expected ident", .nomKind 1)]⟩) =
      .Syntax "expected FROM\nexpected ident\n" ∧
    ∃ s t, errorText ⟨[("expected FROM", .nomKind 0),
        ("expected ident", .nomKind 1)]⟩ = s ++ ("expected ident" ++ "\n") ++ t := by
  have h := c6_syntax_error_accumulates_all_branches
    ⟨[("expected FROM", .nomKind 0), ("expected ident", .nomKind 1)]⟩
  exact ⟨by decide, h.2.2.2 ("expected ident", .nomKind 1) (by decide)⟩

/-- C2 (counterexample): a query whose table name is bogus but with
trailing input fails with InputNotAllConsumed, not InvalidLogFileFormat;
and for SELECT * FROM bogus WHERE size = 1 the WHERE clause is parsed
(it is present in the parser's output) before InvalidLogFileFormat is
produced from that output. -/
theorem c2_counterexample :
    run plannerProbe lowering0 builder0 "SELECT * FROM bogus extra" ds0 false .Json
      = .error (.InputNotAllConsumed " extra") ∧
    AppError.InputNotAllConsumed " extra" ≠ AppError.InvalidLogFileFormat ∧
    whereClauseParsed "SELECT * FROM bogus WHERE size = 1" = true ∧
    run plannerProbe lowering0 builder0 "SELECT * FROM bogus WHERE size = 1"
      ds0 false .Json = .error .InvalidLogFileFormat := by
  refine ⟨by decide, by decide, by decide, by decide⟩

/-- C2 (amended): SELECT * FROM bogus fails with InvalidLogFileFormat
before the logical planner is invoked: the result is the InvalidLogFileFormat
error for every planner, lowering, stream builder, data source and mode,
and is therefore independent of them all.  (The whole statement —
including any WHERE/LIMIT clauses — is syntax-parsed before the table
check, and leftover input is rejected first; see the counterexample.) -/
theorem c2_bogus_rejected_before_planning :
    ∀ (p p2 : Planner) (lo lo2 : PhysicalLowering) (b b2 : StreamBuilder)
      (ds ds2 : DataSource) (em em2 : Bool) (om om2 : OutputMode),
      run p lo b "SELECT * FROM bogus" ds em om = .error .InvalidLogFileFormat ∧
      run p lo b "SELECT * FROM bogus" ds em om
        = run p2 lo2 b2 "SELECT * FROM bogus" ds2 em2 om2 := by
  have key : ∀ (p : Planner) (lo : PhysicalLowering) (b : StreamBuilder)
      (ds : DataSource) (em : Bool) (om : OutputMode),
      run p lo b "SELECT * FROM bogus" ds em om = .error .InvalidLogFileFormat := by
    intro p lo b ds em om
    have hq : select_query "SELECT * FROM bogus"
        = .ok ("", ⟨"bogus", Projection.star, none, none⟩) := by decide
    have hc : (["elb", "alb", "squid", "s3"].contains ("bogus" : String)) = false := by
      decide
    simp [run, hq, hc]
  intro p p2 lo lo2 b b2 ds ds2 em em2 om om2
  exact ⟨key p lo b ds em om,
    (key p lo b ds em om).trans (key p2 lo2 b2 ds2 em2 om2).symm⟩

lemma run_parse_ok (p : Planner) (lo : PhysicalLowering) (b : StreamBuilder)
    (q : String) (ds : DataSource) (em : Bool) (om : OutputMode)
    {stmt : SelectStatement} (hq : select_query q = .ok ("", stmt)) :
    run p lo b q ds em om =
      (if ["elb", "alb", "squid", "s3"].contains stmt.table_name
       then runAfterTableCheck p lo b stmt ds em om
       else .error .InvalidLogFileFormat) := by
  unfold run
  rw [hq]
  rfl

/-- C3 (counterexample): a query whose table identifier is the known
format elb but which carries trailing input is not accepted (the run
returns InputNotAllConsumed for every planner, so the planner is not
reached), and a query with an unknown identifier plus trailing input
fails with InputNotAllConsumed, not InvalidLogFileFormat. -/
theorem c3_counterexample :
    tableOf "SELECT * FROM elb junk" = some "elb" ∧
    (["elb", "alb", "squid", "s3"].contains ("elb" : String)) = true ∧
    run plannerProbe lowering0 builder0 "SELECT * FROM elb junk" ds0 false .Table
      = .error (.InputNotAllConsumed " junk") ∧
    run planner0 lowering0 builder0 "SELECT * FROM elb junk" ds0 false .Table
      = run plannerProbe lowering0 builder0 "SELECT * FROM elb junk" ds0 false .Table ∧
    tableOf "SELECT * FROM bogus junk" = some "bogus" ∧
    run planner0 lowering0 builder0 "SELECT * FROM bogus junk" ds0 false .Table
      = .error (.InputNotAllConsumed " junk") ∧
    AppError.InputNotAllConsumed " junk" ≠ AppError.InvalidLogFileFormat := by
  refine ⟨by decide, by decide, by decide, by decide, by decide, by decide, by decide⟩

/-- C3 (amended): for every query string whose syntax parse succeeds and
consumes the entire input, the driver hands the statement to the logical
planner iff the table identifier is exactly one of elb, alb, squid, s3
(case-sensitive); for any other identifier it returns InvalidLogFileFormat
and the planner is never invoked (the result is the same for every
planner). -/
theorem c3_table_gate :
    ∀ (q : String) (stmt : SelectStatement) (p p2 : Planner)
      (lo : PhysicalLowering) (b : StreamBuilder) (ds : DataSource)
      (em : Bool) (om : OutputMode),
      select_query q = .ok ("", stmt) →
      ((["elb", "alb", "squid", "s3"].contains stmt.table_name = true →
          run p lo b q ds em om
            = runAfterTableCheck p lo b stmt ds em om) ∧
       (["elb", "alb", "squid", "s3"].contains stmt.table_name = false →
          run p lo b q ds em om = .error .InvalidLogFileFormat ∧
          run p lo b q ds em om = run p2 lo b q ds em om)) := by
  intro q stmt p p2 lo b ds em om hq
  constructor
  · intro hc
    rw [run_parse_ok p lo b q ds em om hq, if_pos hc]
  · intro hc
    have hfalse : ¬ (["elb", "alb", "squid", "s3"].contains stmt.table_name = true) := by
      rw [hc]
      simp
    constructor
    · rw [run_parse_ok p lo b q ds em om hq, if_neg hfalse]
    · rw [run_parse_ok p lo b q ds em om hq, if_neg hfalse,
        run_parse_ok p2 lo b q ds em om hq, if_neg hfalse]

/-- C3 (witness): the gate applied to the fully consumed query
SELECT * FROM bogus, whose identifier is unknown. -/
theorem c3_witness :
    run planner0 lowering0 builder0 "SELECT * FROM bogus" ds0 false .Csv
      = .error .InvalidLogFileFormat :=
  ((c3_table_gate "SELECT * FROM bogus" ⟨"bogus", Projection.star, none, none⟩
    planner0 planner0 lowering0 builder0 ds0 false .Csv (by decide)).2 (by decide)).1

/-- C4: whenever the syntax parser succeeds but leaves a non-empty
remainder, the driver returns InputNotAllConsumed carrying exactly that
leftover text, and neither planning nor execution happens: the result is
identical for every planner, lowering and stream builder. -/
theorem c4_leftover_rejected :
    ∀ (q rest : String) (stmt : SelectStatement) (p p2 : Planner)
      (lo lo2 : PhysicalLowering) (b b2 : StreamBuilder)
      (ds ds2 : DataSource) (em em2 : Bool) (om om2 : OutputMode),
      select_query q = .ok (rest, stmt) → rest ≠ "" →
      run p lo b q ds em om = .error (.InputNotAllConsumed rest) ∧
      run p lo b q ds em om = run p2 lo2 b2 q ds2 em2 om2 := by
  intro q rest stmt p p2 lo lo2 b b2 ds ds2 em em2 om om2 hq hrest
  have key : ∀ (p : Planner) (lo : PhysicalLowering) (b : StreamBuilder)
      (ds : DataSource) (em : Bool) (om : OutputMode),
      run p lo b q ds em om = .error (.InputNotAllConsumed rest) := by
    intro p lo b ds em om
    simp [run, hq, hrest]
  exact ⟨key p lo b ds em om,
    (key p lo b ds em om).trans (key p2 lo2 b2 ds2 em2 om2).symm⟩

/-- C4 (witness): a concrete run with leftover text " trailing". -/
theorem c4_witness :
    run planner0 lowering0 builder0 "SELECT * FROM elb trailing" ds0 false .Csv
      = .error (.InputNotAllConsumed " trailing") :=
  (c4_leftover_rejected "SELECT * FROM elb trailing" " trailing"
    ⟨"elb", Projection.star, none, none⟩ planner0 planner0 lowering0 lowering0
    builder0 builder0 ds0 ds0 false false .Csv .Csv (by decide) (by decide)).1

/-- C7: in explain mode, once parsing, planning and lowering succeed the
driver returns the physical plan's debug representation and neither
constructs nor pulls a stream: the result is the same for every stream
builder and output mode. -/
theorem c7_explain_no_stream :
    ∀ (q : String) (stmt : SelectStatement) (p : Planner)
      (lo : PhysicalLowering) (b b2 : StreamBuilder) (ds : DataSource)
      (om om2 : OutputMode) (node : LogicalNode) (pp : PhysicalPlan)
      (vars : Variables),
      select_query q = .ok ("", stmt) →
      ["elb", "alb", "squid", "s3"].contains stmt.table_name = true →
      p stmt ds = .ok node →
      lo node ds = .ok (pp, vars) →
      run p lo b q ds true om = .ok (.explain pp.debugRepr) ∧
      run p lo b q ds true om = run p lo b2 q ds true om2 := by
  intro q stmt p lo b b2 ds om om2 node pp vars hq hc hp hl
  have key : ∀ (b : StreamBuilder) (om : OutputMode),
      run p lo b q ds true om = .ok (.explain pp.debugRepr) := by
    intro b om
    rw [run_parse_ok p lo b q ds true om hq, if_pos hc]
    simp [runAfterTableCheck, hp, hl]
  exact ⟨key b om, (key b om).trans (key b2 om2).symm⟩

/-- C7 (witness): an explain run with a stream builder that would error
if it were ever invoked; the run still succeeds with the plan text. -/
theorem c7_witness :
    run planner0 lowering0 builderProbe "SELECT * FROM alb" ds0 true .Table
      = .ok (.explain "scan") :=
  (c7_explain_no_stream "SELECT * FROM alb" ⟨"alb", Projection.star, none, none⟩
    planner0 lowering0 builderProbe builderProbe ds0 .Table .Table ⟨"scan"⟩
    ⟨"scan"⟩ empty_variables (by decide) (by decide) (by decide) (by decide)).1

/-- C8: in every output mode, when the stream's pulls deliver some
well-formed records and then an error, the driver stops rendering at the
error and returns it (wrapped as AppError.Stream), whatever items would
have followed. -/
theorem c8_stream_error_halts :
    ∀ (q : String) (stmt : SelectStatement) (p : Planner)
      (lo : PhysicalLowering) (b : StreamBuilder) (ds : DataSource)
      (om : OutputMode) (node : LogicalNode) (pp : PhysicalPlan)
      (vars : Variables) (pre post : RecordStream) (e : StreamError),
      select_query q = .ok ("", stmt) →
      ["elb", "alb", "squid", "s3"].contains stmt.table_name = true →
      p stmt ds = .ok node →
      lo node ds = .ok (pp, vars) →
      b pp vars = .ok (pre ++ .error e :: post) →
      (∀ x ∈ pre, ∃ r, x = .ok (some r)) →
      run p lo b q ds false om = .error (.Stream e) := by
  intro q stmt p lo b ds om node pp vars pre post e hq hc hp hl hb hpre
  rw [run_parse_ok p lo b q ds false om hq, if_pos hc]
  cases om with
  | Table =>
    simp [runAfterTableCheck, hp, hl, hb, drainTable_mid_error pre e post hpre]
  | Csv =>
    simp [runAfterTableCheck, hp, hl, hb, drainCsv_mid_error pre e post hpre]
  | Json =>
    simp [runAfterTableCheck, hp, hl, hb, drainJson_mid_error pre e post hpre]

/-- C8 (witness): a stream with one good record, then a malformed line,
then more items; the run returns the stream error. -/
theorem c8_witness :
    run planner0 lowering0
      (fun _ _ => .ok [.ok (some logLine1), .error ⟨"malformed line 2"⟩, .ok none])
      "SELECT * FROM squid" ds0 false .Json = .error (.Stream ⟨"malformed line 2"⟩) :=
  c8_stream_error_halts "SELECT * FROM squid"
    ⟨"squid", Projection.star, none, none⟩ planner0 lowering0
    (fun _ _ => .ok [.ok (some logLine1), .error ⟨"malformed line 2"⟩, .ok none])
    ds0 .Json ⟨"scan"⟩ ⟨"scan"⟩ empty_variables
    [.ok (some logLine1)] [.ok none] ⟨"malformed line 2"⟩
    (by decide) (by decide) (by decide) (by decide) rfl
    (by
      intro x hx
      rw [List.mem_singleton] at hx
      exact ⟨logLine1, hx⟩)

/-- C9: the Limit operator yields at most n records over any number of
next() calls, an exhausted state only ever answers None, and once a
next() call has answered None every later call answers None as well —
the operator never re-enters the active state. -/
theorem c9_limit_at_most_n_and_latched :
    ∀ (child : Nat → Option Record) (n : Nat),
      (∀ k, limitYield child n k ≤ n) ∧
      (∀ k, (limitState child n k).exhausted = true → limitOut child n k = none) ∧
      (∀ k j, limitOut child n k = none → k ≤ j → limitOut child n j = none) := by
  intro child n
  refine ⟨?_, ?_, ?_⟩
  · intro k
    have h := limit_invariant child n k
    omega
  · intro k hk
    exact (limitStep_of_exhausted child _ hk).2
  · intro k j hk hle
    have hex : (limitState child n (k + 1)).exhausted = true :=
      limitStep_none_exhausted child _ hk
    rcases Nat.eq_or_lt_of_le hle with rfl | hlt
    · exact hk
    · obtain ⟨d, rfl⟩ : ∃ d, j = (k + 1) + d := ⟨j - (k + 1), by omega⟩
      exact (limit_exhausted_forever child n (k + 1) hex d).2

/-- C9 (witness): the latch applied to a concrete exhausted child. -/
theorem c9_witness : limitOut (fun _ => none) 5 3 = none :=
  (c9_limit_at_most_n_and_latched (fun _ => none) 5).2.2 0 3 (by decide) (by decide)
